/-
Verification development for the OtoProxy repository (OtoProxy.py,
scraper_checker.py, src/scraper.py) against its natural-language
specification.

Python functions are shallowly embedded as Lean definitions.  Network
effects are made explicit: every function that performs I/O in Python
receives the simulated responses (HTTP status, body, latency, raised
exception) as arguments.  String manipulation is carried out on the
underlying character lists, because those reduce inside the kernel.
-/
import Mathlib

/-- Protocols handled by the pipeline.  OtoProxy.py only ever constructs
proxies with the protocol strings "http", "socks4" and "socks5": main
(line 283) passes exactly this list to hyper_scrape, which forwards one of
the three to every fetch_proxies call. -/
inductive Protocol
  | http
  | socks4
  | socks5
deriving DecidableEq

/-- Class Proxy of OtoProxy.py (lines 34-52): ip, port, protocol, and a
latency annotation that stays 0 until a successful probe sets it.  Python
defines equality and hash on (ip, port) only; where that identity matters
the embedding compares (ip, port) explicitly. -/
structure Proxy where
  ip : String
  port : Nat
  protocol : Protocol
  latency : Nat
deriving DecidableEq

/-- Proxy.format (OtoProxy.py lines 43-44). -/
def Proxy.format (p : Proxy) : String :=
  p.ip ++ ":" ++ toString p.port

/-- Simulated outcome of consulting one test endpoint inside
ProxyScraper.check_proxy (OtoProxy.py lines 185-201): either the request
raised (timeout, connection error, any exception - swallowed by the bare
except on line 200), or a response arrived carrying an HTTP status code
and a measured round-trip latency in milliseconds. -/
inductive EndpointResult
  | raised
  | response (status : Nat) (latencyMs : Nat)
deriving DecidableEq

/-- Observable result of ProxyScraper.check_proxy: the boolean it returns,
the value stored into proxy.latency (none when the field was never
assigned), and how many test endpoints were consulted. -/
structure CheckResult where
  ok : Bool
  latency : Option Nat
  consulted : Nat
deriving DecidableEq

/-- ProxyScraper.check_proxy (OtoProxy.py lines 178-202).  The code walks
test_urls in their fixed order; the list argument gives the simulated
result of each endpoint in that same order.  The first response whose
status is in [200, 201, 202] and whose latency is strictly below
latency_limit (self.latency_limit = 1500, line 63) sets proxy.latency and
returns True; every other outcome falls through to the next endpoint, and
the function returns False after the loop. -/
def check_proxy (latency_limit : Nat) : List EndpointResult → CheckResult
  | [] => ⟨false, none, 0⟩
  | EndpointResult.raised :: rest =>
    let r := check_proxy latency_limit rest
    ⟨r.ok, r.latency, r.consulted + 1⟩
  | EndpointResult.response status latencyMs :: rest =>
    if (status = 200 ∨ status = 201 ∨ status = 202) ∧ latencyMs < latency_limit then
      ⟨true, some latencyMs, 1⟩
    else
      let r := check_proxy latency_limit rest
      ⟨r.ok, r.latency, r.consulted + 1⟩

/-! Character-level helpers.  Python string operations are embedded on the
underlying character lists so that everything reduces inside the kernel. -/

/-- Numeric value of a decimal digit character. -/
def char_val (c : Char) : Nat := c.toNat - 48

/-- Numeric value of a decimal digit string, most significant digit first
(what Python's int() computes on a plain digit string). -/
def digits_to_nat (cs : List Char) : Nat :=
  cs.foldl (fun a c => 10 * a + char_val c) 0

/-- Splitting a character list at every occurrence of the separator, the
semantics of Python's str.split with a one-character separator. -/
def split_ch (sep : Char) : List Char → List (List Char)
  | [] => [[]]
  | c :: rest =>
    match split_ch sep rest with
    | [] => [[c]]
    | p :: ps => if c = sep then [] :: p :: ps else (c :: p) :: ps

/-- First alternative 25[0-5] of the octet group in ProxyScraper.ip_pattern
(OtoProxy.py line 60). -/
def octet_alt_25x : List Char → Bool
  | [a, b, c] => decide (a = '2') && decide (b = '5') && decide ('0' ≤ c) && decide (c ≤ '5')
  | _ => false

/-- Second octet alternative 2[0-4][0-9]. -/
def octet_alt_2xx : List Char → Bool
  | [a, b, c] => decide (a = '2') && decide ('0' ≤ b) && decide (b ≤ '4') && c.isDigit
  | _ => false

/-- Third octet alternative [01]?[0-9][0-9]? (one to three characters; a
two-character string matches either with the optional [01] present or with
both digit classes used). -/
def octet_alt_01x : List Char → Bool
  | [a] => a.isDigit
  | [a, b] => ((decide (a = '0') || decide (a = '1')) && b.isDigit) || (a.isDigit && b.isDigit)
  | [a, b, c] => (decide (a = '0') || decide (a = '1')) && b.isDigit && c.isDigit
  | _ => false

/-- One octet of ProxyScraper.ip_pattern: (25[0-5]|2[0-4][0-9]|[01]?[0-9][0-9]?). -/
def octet_re (cs : List Char) : Bool :=
  octet_alt_25x cs || octet_alt_2xx cs || octet_alt_01x cs

/-- ProxyScraper.is_valid_ip (OtoProxy.py lines 75-76).  The anchored
pattern (octet\.){3}octet matches a string exactly when splitting it at
the dots yields four parts, each in the octet language (octets consist of
digits, so they never contain a dot themselves). -/
def is_valid_ip (s : String) : Bool :=
  let parts := split_ch '.' s.data
  parts.length == 4 && parts.all octet_re

/-- ProxyScraper.is_valid_port (OtoProxy.py lines 78-79). -/
def is_valid_port (port : Nat) : Bool :=
  decide (0 < port) && decide (port < 65536)

/-- Admission test applied by the parse loop of OtoProxy.fetch_proxies
(line 161) to a token already split into ip text and numeric port. -/
def oto_admit (ip : String) (port : Nat) : Bool :=
  is_valid_ip ip && is_valid_port port

/-- Run of decimal digits with the given length bounds: the regex piece
\d{lo,hi}. -/
def digit_run (lo hi : Nat) (cs : List Char) : Bool :=
  decide (lo ≤ cs.length) && decide (cs.length ≤ hi) && cs.all Char.isDigit

/-- SPEC-side definition, written from the spec's words for comparison with
is_valid_ip: one octet of a strict dotted quad, i.e. one to three decimal
digits whose numeric value is at most 255. -/
def spec_octet (cs : List Char) : Bool :=
  digit_run 1 3 cs && decide (digits_to_nat cs ≤ 255)

/-- SPEC-side definition: strict dotted-quad IPv4 syntax with all four
octets in [0,255]. -/
def spec_valid_ipv4 (s : String) : Bool :=
  let parts := split_ch '.' s.data
  parts.length == 4 && parts.all spec_octet

/-- SPEC-side definition: the admission predicate as the spec states it,
ip in strict dotted-quad syntax and port in [1,65535]. -/
def spec_admit (ip : String) (port : Nat) : Bool :=
  spec_valid_ipv4 ip && (decide (1 ≤ port) && decide (port ≤ 65535))

/-- PROXY_REGEX of scraper_checker.py (line 24), applied to an ip:port
token: (\d{1,3}\.\d{1,3}\.\d{1,3}\.\d{1,3}):(\d{1,5}).  parse_proxies
(lines 39-58) adds every token this regex finds to the candidate set with
no further validation of octet or port values. -/
def parse_proxies_admits (ip port : String) : Bool :=
  (let parts := split_ch '.' ip.data
   parts.length == 4 && parts.all (digit_run 1 3)) && digit_run 1 5 port.data

/-- Characters are equal exactly when their code points are. -/
theorem char_eq_iff_toNat (c d : Char) : c = d ↔ c.toNat = d.toNat :=
  Char.ext_iff.trans UInt32.ext_iff

/-- Character order is code-point order. -/
theorem char_le_iff_toNat (c d : Char) : c ≤ d ↔ c.toNat ≤ d.toNat := Iff.rfl

/-- Char.isDigit in terms of code points. -/
theorem isDigit_iff_toNat (c : Char) : c.isDigit = true ↔ 48 ≤ c.toNat ∧ c.toNat ≤ 57 := by
  simp only [Char.isDigit, Bool.and_eq_true, decide_eq_true_iff]
  exact Iff.rfl

/-- C1: with the simulated test-endpoint responses [timeout, success with
latency 400 ms, success with latency 900 ms] under the 1500 ms ceiling,
check_proxy reports success with latency 400 ms and consults only the
first two endpoints, never the third (first success wins, fixed probe
order). -/
theorem c1_first_success_wins :
    check_proxy 1500
      [EndpointResult.raised, EndpointResult.response 200 400,
        EndpointResult.response 200 900] =
      ⟨true, some 400, 2⟩ := by
  decide

/-- C5: a response with a success status whose measured latency is at or
above the ceiling does not verify the candidate from that endpoint: the
probe result is exactly the result of probing the remaining endpoints
(so proxy.latency is not set by this response), with one more endpoint
consulted. -/
theorem c5_latency_ceiling_skips_endpoint (latency_limit status latencyMs : Nat)
    (rest : List EndpointResult)
    (hst : status = 200 ∨ status = 201 ∨ status = 202)
    (hlat : latency_limit ≤ latencyMs) :
    check_proxy latency_limit (EndpointResult.response status latencyMs :: rest) =
      ⟨(check_proxy latency_limit rest).ok, (check_proxy latency_limit rest).latency,
        (check_proxy latency_limit rest).consulted + 1⟩ := by
  have hc : ¬ ((status = 200 ∨ status = 201 ∨ status = 202) ∧ latencyMs < latency_limit) := by
    rintro ⟨-, h⟩
    omega
  simp only [check_proxy, if_neg hc]

/-- C5 witness: a 1600 ms success under the 1500 ms ceiling is skipped and
the probe goes on to verify the candidate from the next endpoint with
latency 100 ms. -/
theorem c5_latency_ceiling_skips_endpoint_witness :
    check_proxy 1500 [EndpointResult.response 200 1600, EndpointResult.response 200 100] =
      ⟨true, some 100, 2⟩ := by
  rw [c5_latency_ceiling_skips_endpoint 1500 200 1600 [EndpointResult.response 200 100]
    (Or.inl rfl) (by decide)]
  decide

/-- Code point of the digit character 0. -/
theorem toNat_char_0 : ('0' : Char).toNat = 48 := rfl

/-- Code point of the digit character 1. -/
theorem toNat_char_1 : ('1' : Char).toNat = 49 := rfl

/-- Code point of the digit character 2. -/
theorem toNat_char_2 : ('2' : Char).toNat = 50 := rfl

/-- Code point of the digit character 4. -/
theorem toNat_char_4 : ('4' : Char).toNat = 52 := rfl

/-- Code point of the digit character 5. -/
theorem toNat_char_5 : ('5' : Char).toNat = 53 := rfl

/-- The octet language of ProxyScraper.ip_pattern is exactly the strict
octet language of the spec: one to three digits with value at most 255. -/
theorem octet_re_eq_spec_octet (cs : List Char) : octet_re cs = spec_octet cs := by
  match cs with
  | [] => rfl
  | [a] =>
    rw [Bool.eq_iff_iff]
    simp only [octet_re, octet_alt_25x, octet_alt_2xx, octet_alt_01x, spec_octet, digit_run,
      digits_to_nat, char_val, List.foldl_cons, List.foldl_nil, List.all_cons, List.all_nil,
      List.length_cons, List.length_nil, Bool.or_eq_true, Bool.and_eq_true, Bool.false_or,
      Bool.and_true, decide_eq_true_iff, isDigit_iff_toNat]
    omega
  | [a, b] =>
    rw [Bool.eq_iff_iff]
    simp only [octet_re, octet_alt_25x, octet_alt_2xx, octet_alt_01x, spec_octet, digit_run,
      digits_to_nat, char_val, List.foldl_cons, List.foldl_nil, List.all_cons, List.all_nil,
      List.length_cons, List.length_nil, Bool.or_eq_true, Bool.and_eq_true, Bool.false_or,
      Bool.and_true, decide_eq_true_iff, isDigit_iff_toNat, char_eq_iff_toNat,
      toNat_char_0, toNat_char_1]
    omega
  | [a, b, c] =>
    rw [Bool.eq_iff_iff]
    simp only [octet_re, octet_alt_25x, octet_alt_2xx, octet_alt_01x, spec_octet, digit_run,
      digits_to_nat, char_val, List.foldl_cons, List.foldl_nil, List.all_cons, List.all_nil,
      List.length_cons, List.length_nil, Bool.or_eq_true, Bool.and_eq_true, Bool.false_or,
      Bool.and_true, decide_eq_true_iff, isDigit_iff_toNat, char_eq_iff_toNat,
      char_le_iff_toNat, toNat_char_0, toNat_char_1, toNat_char_2, toNat_char_4, toNat_char_5]
    omega
  | a :: b :: c :: d :: t =>
    have hlen : decide (List.length (a :: b :: c :: d :: t) ≤ 3) = false := by
      simp only [List.length_cons, decide_eq_false_iff_not]
      omega
    have hspec : spec_octet (a :: b :: c :: d :: t) = false := by
      unfold spec_octet digit_run
      rw [hlen]
      simp
    have hre : octet_re (a :: b :: c :: d :: t) = false := by
      simp [octet_re, octet_alt_25x, octet_alt_2xx, octet_alt_01x]
    rw [hspec, hre]

/-- ProxyScraper.is_valid_ip agrees with the spec's strict dotted-quad
validator on every string. -/
theorem is_valid_ip_eq_spec (s : String) : is_valid_ip s = spec_valid_ipv4 s := by
  unfold is_valid_ip spec_valid_ipv4
  rw [funext octet_re_eq_spec_octet]

/-- ProxyScraper.is_valid_port (0 < port < 65536) agrees with the spec's
port range [1,65535]. -/
theorem is_valid_port_eq_spec (p : Nat) :
    is_valid_port p = (decide (1 ≤ p) && decide (p ≤ 65535)) := by
  rw [Bool.eq_iff_iff]
  simp only [is_valid_port, Bool.and_eq_true, decide_eq_true_iff]
  omega

/-- C2 counterexample: scraper_checker.py admits candidates through
PROXY_REGEX alone, so the tokens 300.1.1.1:80 and 5.6.7.8:99999 - which
the claim says are rejected - are admitted by its parse_proxies, while the
strict validator of the claim rejects both. -/
theorem c2_checker_admits_invalid_tokens :
    parse_proxies_admits "300.1.1.1" "80" = true ∧
      parse_proxies_admits "5.6.7.8" "99999" = true ∧
      spec_admit "300.1.1.1" 80 = false ∧
      spec_admit "5.6.7.8" 99999 = false := by
  decide

/-- C2 amended: admission in OtoProxy.py (is_valid_ip plus is_valid_port)
is exactly the claimed strict criterion - strict dotted-quad IPv4 with all
octets in [0,255] and port in [1,65535] - so 1.2.3.4:8080 is admitted and
300.1.1.1:80 and 5.6.7.8:99999 are rejected there; the scraper_checker.py
variant admits every token matching its looser PROXY_REGEX instead. -/
theorem c2_oto_admission_is_strict :
    (∀ ip port, oto_admit ip port = spec_admit ip port) ∧
      oto_admit "1.2.3.4" 8080 = true ∧
      oto_admit "300.1.1.1" 80 = false ∧
      oto_admit "5.6.7.8" 99999 = false := by
  refine ⟨fun ip port => ?_, by decide, by decide, by decide⟩
  unfold oto_admit spec_admit
  rw [is_valid_ip_eq_spec, is_valid_port_eq_spec]

/-- Python str.strip on a character list: remove leading and trailing
whitespace. -/
def trim_chars (cs : List Char) : List Char :=
  ((cs.dropWhile Char.isWhitespace).reverse.dropWhile Char.isWhitespace).reverse

/-- Python int() on the port text produced by the colon split in
fetch_proxies: the tokens at issue are plain digit strings, on which int()
returns their decimal value; on a non-numeric string it raises ValueError
(modelled as none). -/
def str_to_nat (cs : List Char) : Option Nat :=
  if cs ≠ [] ∧ cs.all Char.isDigit then some (digits_to_nat cs) else none

/-- One iteration of the candidate loop in fetch_proxies (OtoProxy.py lines
156-169) as the body executes on one line of text.  The state is the pair
(seen identities from self.seen_proxies, proxies gathered so far for this
source).  Iterations that raise - a colon count other than one, a
non-numeric port - leave the state unchanged, because the bare except on
line 168 continues the loop. -/
def parse_step (blacklist : List String) (protocol : Protocol)
    (st : List (String × Nat) × List Proxy) (line : String) :
    List (String × Nat) × List Proxy :=
  if line.data.contains ':' then
    match split_ch ':' (trim_chars line.data) with
    | [ipChars, portChars] =>
      match str_to_nat portChars with
      | some port =>
        if is_valid_ip ⟨ipChars⟩ && is_valid_port port then
          if (⟨ipChars⟩ : String) ++ ":" ++ toString port ∈ blacklist then st
          else if ((⟨ipChars⟩ : String), port) ∈ st.1 then st
          else (st.1 ++ [(⟨ipChars⟩, port)], st.2 ++ [⟨⟨ipChars⟩, port, protocol, 0⟩])
        else st
      | none => st
    | _ => st
  else st

/-- The candidate loop of fetch_proxies over a list of lines, starting from
the given seen set and an empty per-source set. -/
def parse_lines (blacklist : List String) (protocol : Protocol)
    (seen : List (String × Nat)) (lines : List String) :
    List (String × Nat) × List Proxy :=
  lines.foldl (parse_step blacklist protocol) (seen, [])

/-- Marker for a Python expression that either produces a value or raises. -/
inductive PyResult (α : Type)
  | ok (a : α)
  | raised (msg : String)

/-- The parse phase of fetch_proxies as actually written (OtoProxy.py line
156): after a 200 response the code runs for line in f, but no name f is
bound anywhere in the function (the response text went into content), so
the first loop step raises NameError regardless of the fetched text. -/
def fetch_parse_as_written (content : String) : PyResult (List Proxy) :=
  PyResult.raised "NameError: name f is not defined"

/-- ProxyScraper.fetch_proxies (OtoProxy.py lines 141-176) for one source.
cached is the diskcache entry under the url's cache key (line 144): a
non-empty cached set is returned as-is, with no blacklist or seen-set
check.  Otherwise the fetch runs: on a 200 status the parse loop executes
and raises NameError (fetch_parse_as_written), which the except on line
174 turns into an empty result; on any other status the set stays empty. -/
def fetch_proxies (cached : Option (List Proxy)) (status : Nat)
    (content : String) : List Proxy :=
  let fresh :=
    if status == 200 then
      match fetch_parse_as_written content with
      | PyResult.ok ps => ps
      | PyResult.raised _ => []
    else []
  match cached with
  | some ps => if ps.isEmpty then fresh else ps
  | none => fresh

/-- Python set-union step over proxy identities: a proxy is added only when
no proxy with the same (ip, port) is already present (Proxy equality and
hash use only ip and port, OtoProxy.py lines 46-52). -/
def insert_by_id (acc : List Proxy) (p : Proxy) : List Proxy :=
  if acc.any (fun q => q.ip == p.ip && q.port == p.port) then acc else acc ++ [p]

/-- ProxyScraper.hyper_scrape (OtoProxy.py lines 233-243): fetch every
source - each given by its simulated cache entry, HTTP status and body -
and take the identity-deduplicating union of the per-source sets.  The
result is exactly the candidate list main hands to verify_proxies
(lines 283-285). -/
def hyper_scrape (fetches : List (Option (List Proxy) × Nat × String)) : List Proxy :=
  ((fetches.map (fun f => fetch_proxies f.1 f.2.1 f.2.2)).flatten).foldl insert_by_id []

/-- Helper: one parse-loop iteration never adds a proxy whose format is in
the blacklist (the loop admits a candidate only after checking proxy_str
not in self.blacklist, OtoProxy.py line 163). -/
theorem parse_step_excludes (blacklist : List String) (protocol : Protocol)
    (st : List (String × Nat) × List Proxy) (line : String)
    (h : ∀ p ∈ st.2, p.format ∉ blacklist) :
    ∀ p ∈ (parse_step blacklist protocol st line).2, p.format ∉ blacklist := by
  unfold parse_step
  split
  · split
    · split
      · split
        · split
          · exact h
          · split
            · exact h
            · intro p hp
              rcases List.mem_append.mp hp with hmem | hnew
              · exact h p hmem
              · rcases List.mem_singleton.mp hnew with rfl
                simpa [Proxy.format] using by assumption
        · exact h
      · exact h
    · exact h
  · exact h

/-- Helper: the whole candidate loop never emits a blacklisted candidate. -/
theorem parse_lines_excludes (blacklist : List String) (protocol : Protocol)
    (seen : List (String × Nat)) (lines : List String) :
    ∀ p ∈ (parse_lines blacklist protocol seen lines).2, p.format ∉ blacklist := by
  unfold parse_lines
  have aux : ∀ (ls : List String) (st : List (String × Nat) × List Proxy),
      (∀ p ∈ st.2, p.format ∉ blacklist) →
      ∀ p ∈ (ls.foldl (parse_step blacklist protocol) st).2, p.format ∉ blacklist := by
    intro ls
    induction ls with
    | nil => intro st h; exact h
    | cons l t ih =>
      intro st h
      exact ih _ (parse_step_excludes blacklist protocol st l h)
  exact aux lines (seen, []) (by intro p hp; exact absurd hp (List.not_mem_nil p))

/-- C3: a fresh fetch never returns a candidate, whatever the 200 body
contains: the parse loop iterates the unbound name f, so it raises
NameError and the handler returns the empty set.  The loop body itself
(parse_lines), run over the body's lines as evidently intended, does
produce the validated candidate for a well-formed, non-blacklisted,
unseen line - so the returned set should have been non-empty. -/
theorem c3_fresh_fetch_always_empty :
    (∀ status content, fetch_proxies none status content = []) ∧
      (parse_lines [] Protocol.http [] ["1.2.3.4:8080"]).2 =
        [⟨"1.2.3.4", 8080, Protocol.http, 0⟩] := by
  constructor
  · intro status content
    unfold fetch_proxies fetch_parse_as_written
    split <;> rfl
  · decide

/-- C6 counterexample: a candidate whose ip:port is in the loaded blacklist
but which sits in a cache entry is returned by fetch_proxies without any
blacklist check and therefore appears in hyper_scrape's result - the exact
list main passes to verify_proxies.  Here the blacklist loaded at startup
is ["1.2.3.4:8080"] and the cache entry holds that very candidate. -/
theorem c6_cached_blacklisted_candidate_reaches_verification :
    hyper_scrape [(some [⟨"1.2.3.4", 8080, Protocol.http, 0⟩], 200, "")] =
        [⟨"1.2.3.4", 8080, Protocol.http, 0⟩] ∧
      Proxy.format ⟨"1.2.3.4", 8080, Protocol.http, 0⟩ ∈ ["1.2.3.4:8080"] := by
  constructor
  · rfl
  · decide

/-- C6 amended: the fresh-parse path of fetch_proxies never admits a
candidate whose ip:port is in the loaded blacklist, but the cache-hit path
returns the cached set unchanged, with no blacklist filtering - so a
blacklisted candidate can reach verification exactly when it arrives from
the fetch cache (for example from an entry persisted by an earlier run
within the 30-minute diskcache TTL). -/
theorem c6_blacklist_excluded_only_on_fresh_parse :
    (∀ blacklist protocol seen lines p,
        p ∈ (parse_lines blacklist protocol seen lines).2 → p.format ∉ blacklist) ∧
      (∀ cached status content, cached ≠ [] →
        fetch_proxies (some cached) status content = cached) := by
  constructor
  · intro blacklist protocol seen lines p hp
    exact parse_lines_excludes blacklist protocol seen lines p hp
  · intro cached status content hne
    unfold fetch_proxies
    simp [List.isEmpty_iff, hne]

/-- C6 witness: the amended theorem applied at the concrete blacklist
["9.9.9.9:1"], one well-formed line, and a concrete non-empty cache
entry. -/
theorem c6_blacklist_excluded_only_on_fresh_parse_witness :
    (Proxy.format ⟨"1.2.3.4", 8080, Protocol.http, 0⟩ ∉ ["9.9.9.9:1"]) ∧
      fetch_proxies (some [⟨"5.5.5.5", 1, Protocol.http, 0⟩]) 200 "" =
        [⟨"5.5.5.5", 1, Protocol.http, 0⟩] :=
  ⟨c6_blacklist_excluded_only_on_fresh_parse.1 ["9.9.9.9:1"] Protocol.http [] ["1.2.3.4:8080"]
      ⟨"1.2.3.4", 8080, Protocol.http, 0⟩ (by decide),
    c6_blacklist_excluded_only_on_fresh_parse.2 [⟨"5.5.5.5", 1, Protocol.http, 0⟩] 200 ""
      (by decide)⟩

/-- Simulated network outcome of the probe request issued by check_proxy of
src/scraper.py (lines 49-61): either a response with some HTTP status
arrived, or the request raised an exception. -/
inductive ProbeNet
  | status (code : Nat)
  | raised
deriving DecidableEq

/-- ProxyScraper.check_proxy of src/scraper.py (lines 49-61).  On an
exception the except branch returns the pair (None, None); on a 200
response it returns (proxy, proxy_type); but on a response with any other
status no return statement runs, so the function falls off the end of the
try block and returns the bare Python None - not a pair.  The outer option
is that bare None; the inner options are the None components of a returned
pair. -/
def scraper_check_proxy (net : ProbeNet) (proxy ptype : String) :
    Option (Option String × Option String) :=
  match net with
  | ProbeNet.raised => some (none, none)
  | ProbeNet.status code =>
    if code = 200 then some (some proxy, some ptype) else none

/-- The collection loop of src/scraper.py run (lines 89-94): every probe
result is unpacked with proxy, ptype = await future; a pair unpacks (and
if proxy: keeps only live candidates), while unpacking the bare None
raises TypeError, which nothing in run catches - the run aborts at that
point and no further result is processed. -/
def run_live_step (results : List (Option (Option String × Option String))) :
    Except String (List (String × String)) :=
  match results with
  | [] => Except.ok []
  | none :: _ => Except.error "TypeError: cannot unpack non-iterable NoneType object"
  | some (some p, some t) :: rest =>
    match run_live_step rest with
    | Except.ok live => Except.ok ((p, t) :: live)
    | Except.error e => Except.error e
  | some _ :: rest => run_live_step rest

/-- C4: a probe whose test request returns a non-success status (here 404)
is not contained in src/scraper.py: check_proxy returns the bare None, and
run's tuple unpacking raises TypeError, aborting the whole batch - the
candidate lands in neither a verified nor an invalid result.  The except
branch of the same function returns the pair (None, None), showing the
intended shape; the fall-through return of bare None is a slip. -/
theorem c4_non_success_status_aborts_scraper_run :
    scraper_check_proxy (ProbeNet.status 404) "1.2.3.4:80" "http" = none ∧
      run_live_step [scraper_check_proxy (ProbeNet.status 404) "1.2.3.4:80" "http"] =
        Except.error "TypeError: cannot unpack non-iterable NoneType object" :=
  ⟨rfl, rfl⟩

/-- The per-protocol source url lists built by OtoProxy.load_sources. -/
structure Sources where
  http : List String
  socks4 : List String
  socks5 : List String
deriving DecidableEq

/-- Python str.lower on a character list. -/
def lower_chars (cs : List Char) : List Char := cs.map Char.toLower

/-- Python substring containment: needle in hay. -/
def has_sub (needle : List Char) : List Char → Bool
  | [] => needle.isEmpty
  | c :: rest => needle.isPrefixOf (c :: rest) || has_sub needle rest

/-- Classification of one line of sites.txt by OtoProxy.load_sources
(lines 99-108): strip, skip empty lines and lines not starting with http,
then route on the case-insensitive substrings socks4 and socks5, with http
as the default bucket. -/
def classify_source_line (acc : Sources) (line : String) : Sources :=
  let l := trim_chars line.data
  if l.isEmpty || !("http".data.isPrefixOf l) then acc
  else if has_sub "socks4".data (lower_chars l) then
    { acc with socks4 := acc.socks4 ++ [(⟨l⟩ : String)] }
  else if has_sub "socks5".data (lower_chars l) then
    { acc with socks5 := acc.socks5 ++ [(⟨l⟩ : String)] }
  else { acc with http := acc.http ++ [(⟨l⟩ : String)] }

/-- The built-in fallback sources of OtoProxy.load_sources (lines 112-116). -/
def default_sources : Sources :=
  ⟨["https://raw.githubusercontent.com/TheSpeedX/PROXY-List/master/http.txt"],
    ["https://raw.githubusercontent.com/TheSpeedX/PROXY-List/master/socks4.txt"],
    ["https://raw.githubusercontent.com/TheSpeedX/PROXY-List/master/socks5.txt"]⟩

/-- ProxyScraper.load_sources (OtoProxy.py lines 95-117).  The argument is
the line list of sites.txt, or none when the file is missing.  The
FileNotFoundError branch does not abort: it logs, substitutes the built-in
default sources, and __init__ proceeds with them. -/
def load_sources : Option (List String) → Sources
  | none => default_sources
  | some lines => lines.foldl classify_source_line ⟨[], [], []⟩

/-- Exit status of scraper_checker.py main (lines 104-111) as a function of
whether sources.txt could be read: the except branch logs the error and
returns from main, so asyncio.run completes normally and the interpreter
exits with status 0 in both cases; in the missing case no stage runs and
no output file is written. -/
def checker_main_exit : Option (List String) → Nat
  | none => 0
  | some _ => 0

/-- ProxyScraper._load_sources of src/scraper.py (lines 25-27): the open
call has no handler, so a missing src/proxies.txt raises FileNotFoundError
through __init__ and asyncio.run, terminating the interpreter with a
traceback and a non-zero exit status. -/
def scraper_load_sources : Option (List String) → Except String (List String)
  | none => Except.error "FileNotFoundError"
  | some lines =>
    Except.ok ((lines.filter (fun l => !(trim_chars l.data).isEmpty)).map
      (fun l => (⟨trim_chars l.data⟩ : String)))

/-- C7 counterexample: with the source list missing, OtoProxy.py does not
abort - load_sources returns the built-in default sources and the run
proceeds with them - and scraper_checker.py exits with status 0, not a
non-zero status. -/
theorem c7_missing_source_list_does_not_abort :
    load_sources none = default_sources ∧ checker_main_exit none = 0 :=
  ⟨rfl, rfl⟩

/-- C7 amended: when the source list is missing, OtoProxy.py substitutes a
non-empty built-in default source set and continues, scraper_checker.py
returns from main (exit status 0) without producing outputs, and only
src/scraper.py aborts with an uncaught FileNotFoundError (non-zero exit);
no variant both aborts and continues. -/
theorem c7_exit_behavior_per_variant :
    load_sources none = default_sources ∧
      (load_sources none).http ≠ [] ∧
      checker_main_exit none = 0 ∧
      scraper_load_sources none = Except.error "FileNotFoundError" := by
  refine ⟨rfl, ?_, rfl, rfl⟩
  intro h
  exact List.noConfusion h

/-- Stable insertion into a latency-sorted list: the new element goes after
every element with strictly smaller latency and before the first element
with equal or larger latency. -/
def insert_by_latency (p : Proxy) : List Proxy → List Proxy
  | [] => [p]
  | q :: qs => if q.latency < p.latency then q :: insert_by_latency p qs else p :: q :: qs

/-- Python's sorted(proxies, key=lambda x: x.latency) (OtoProxy.py line
257): a stable sort ascending by latency. -/
def sorted_by_latency (l : List Proxy) : List Proxy :=
  l.foldr insert_by_latency []

/-- The all-proxies sequence built by save_proxies (OtoProxy.py lines
252-259): every verified proxy, in latency order, protocols interleaved. -/
def all_lines (proxies : List Proxy) : List String :=
  (sorted_by_latency proxies).map Proxy.format

/-- The http partition written by save_proxies (lines 260-261): the loop
appends each sorted proxy whose protocol is http. -/
def http_lines (proxies : List Proxy) : List String :=
  ((sorted_by_latency proxies).filter (fun p => p.protocol == Protocol.http)).map Proxy.format

/-- The socks4 partition written by save_proxies (lines 262-263). -/
def socks4_lines (proxies : List Proxy) : List String :=
  ((sorted_by_latency proxies).filter (fun p => p.protocol == Protocol.socks4)).map Proxy.format

/-- The socks5 partition written by save_proxies (lines 264-265). -/
def socks5_lines (proxies : List Proxy) : List String :=
  ((sorted_by_latency proxies).filter (fun p => p.protocol == Protocol.socks5)).map Proxy.format

/-- ProxyScraper.save_proxies (OtoProxy.py lines 250-277) as the list of
(filename, content lines) writes it performs.  The single loop over the
sorted proxies appends each one to all_proxies and to its protocol
partition, which is the filter/map above.  Every file - including
blacklist.txt - is opened with mode 'w'. -/
def save_proxies (proxies : List Proxy) (invalid_proxies : List String) :
    List (String × List String) :=
  [("all-proxies.txt", all_lines proxies),
    ("http-proxies.txt", http_lines proxies),
    ("socks4-proxies.txt", socks4_lines proxies),
    ("socks5-proxies.txt", socks5_lines proxies),
    ("blacklist.txt", invalid_proxies)]

/-- Content of a file after open(filename, 'w') followed by a write: mode
'w' truncates, so the previous content is discarded entirely. -/
def file_after_write (previous new_lines : List String) : List String := new_lines

/-- C8 counterexample: an entry present in blacklist.txt at startup
(9.9.9.9:1) is gone after save_proxies writes the file: the write uses
mode 'w' and emits only the run's invalid candidates (8.8.8.8:2). -/
theorem c8_startup_blacklist_entry_lost :
    file_after_write ["9.9.9.9:1"]
        (((save_proxies [] ["8.8.8.8:2"]).lookup "blacklist.txt").getD []) =
      ["8.8.8.8:2"] ∧
      "9.9.9.9:1" ∉ file_after_write ["9.9.9.9:1"]
        (((save_proxies [] ["8.8.8.8:2"]).lookup "blacklist.txt").getD []) := by
  constructor
  · rfl
  · decide

/-- C8 amended: blacklist.txt is rewritten, not appended: after save_proxies
runs, the file holds exactly the current run's invalid candidates,
independent of what it held at startup - a startup entry survives only if
this run's invalid list happens to contain it again. -/
theorem c8_blacklist_file_is_overwritten
    (proxies : List Proxy) (invalid_proxies previous : List String) :
    (save_proxies proxies invalid_proxies).lookup "blacklist.txt" = some invalid_proxies ∧
      file_after_write previous invalid_proxies = invalid_proxies :=
  ⟨rfl, rfl⟩


/-- Helper: any proxy list is a permutation of its three protocol filters
concatenated (every proxy carries one of the three protocols). -/
theorem perm_protocol_partition (l : List Proxy) :
    l.Perm (l.filter (fun p => p.protocol == Protocol.http) ++
      l.filter (fun p => p.protocol == Protocol.socks4) ++
      l.filter (fun p => p.protocol == Protocol.socks5)) := by
  induction l with
  | nil => simp
  | cons p t ih =>
    rcases hp : p.protocol with _ | _ | _
    · simp only [List.filter_cons, hp, show (Protocol.http == Protocol.http) = true from rfl,
        show (Protocol.http == Protocol.socks4) = false from rfl,
        show (Protocol.http == Protocol.socks5) = false from rfl, if_true, if_false,
        Bool.false_eq_true, if_neg, ite_false, ite_true]
      exact ih.cons p
    · simp only [List.filter_cons, hp, show (Protocol.socks4 == Protocol.http) = false from rfl,
        show (Protocol.socks4 == Protocol.socks4) = true from rfl,
        show (Protocol.socks4 == Protocol.socks5) = false from rfl, if_true, if_false,
        Bool.false_eq_true, ite_false, ite_true]
      refine (ih.cons p).trans ?_
      simp only [List.append_assoc]
      exact List.perm_middle.symm
    · simp only [List.filter_cons, hp, show (Protocol.socks5 == Protocol.http) = false from rfl,
        show (Protocol.socks5 == Protocol.socks4) = false from rfl,
        show (Protocol.socks5 == Protocol.socks5) = true from rfl, if_true, if_false,
        Bool.false_eq_true, ite_false, ite_true]
      refine (ih.cons p).trans ?_
      have h := @List.perm_middle _ p
        (t.filter (fun q => q.protocol == Protocol.http) ++
          t.filter (fun q => q.protocol == Protocol.socks4))
        (t.filter (fun q => q.protocol == Protocol.socks5))
      simp only [List.append_assoc] at h ⊢
      exact h.symm

/-- C9 counterexample: with a socks4 proxy at 100 ms and an http proxy at
200 ms, the all sequence handed to persistence is the latency-sorted
interleaving (socks4 entry first), not the concatenation of the
per-protocol partitions in the order http, socks4, socks5. -/
theorem c9_all_is_not_protocol_concatenation :
    all_lines [⟨"2.2.2.2", 2, Protocol.socks4, 100⟩, ⟨"1.1.1.1", 1, Protocol.http, 200⟩] ≠
      http_lines [⟨"2.2.2.2", 2, Protocol.socks4, 100⟩, ⟨"1.1.1.1", 1, Protocol.http, 200⟩] ++
        socks4_lines [⟨"2.2.2.2", 2, Protocol.socks4, 100⟩, ⟨"1.1.1.1", 1, Protocol.http, 200⟩] ++
        socks5_lines [⟨"2.2.2.2", 2, Protocol.socks4, 100⟩, ⟨"1.1.1.1", 1, Protocol.http, 200⟩] := by
  decide

/-- C9 amended: the all sequence written by save_proxies is every verified
proxy in ascending latency order with protocols interleaved; it is a
permutation of the http, socks4 and socks5 partitions concatenated in that
fixed order (same entries, same per-protocol relative order), but not in
general equal to that concatenation as a sequence. -/
theorem c9_all_permutes_protocol_partitions (proxies : List Proxy) :
    (all_lines proxies).Perm
      (http_lines proxies ++ socks4_lines proxies ++ socks5_lines proxies) := by
  unfold all_lines http_lines socks4_lines socks5_lines
  rw [← List.map_append, ← List.map_append]
  exact (perm_protocol_partition (sorted_by_latency proxies)).map Proxy.format

/-- Start times (in seconds from loop entry) of successive geo lookups in
scraper_checker.py main (lines 150-156): before every lookup the loop
awaits asyncio.sleep(60 / GEO_RATE_LIMIT) - two seconds, since
GEO_RATE_LIMIT = 30 (line 18) - and then awaits the lookup itself, whose
duration is d i for lookup i.  Lookup i is in flight from
geo_lookup_time d i to geo_lookup_time d i + d i. -/
def geo_lookup_time (d : Nat → Nat) : Nat → Nat
  | 0 => 2
  | n + 1 => geo_lookup_time d n + d n + 2

/-- The maximum number of geo lookups that can be in flight simultaneously
in src/scraper.py: run (lines 96-102) launches one check_country task per
live proxy concurrently, and check_country (lines 63-74) bounds them only
by self.rate_limit = asyncio.Semaphore(40) (line 18) - no sleep, no
serialization - so with n pending lookups, min n 40 of them can hold the
semaphore and be in flight at once. -/
def scraper_geo_max_inflight (n : Nat) : Nat := min n 40

/-- Helper: between the starts of any two checker lookups i and i + k lie
at least 2 * k seconds. -/
theorem geo_lookup_time_gap (d : Nat → Nat) (i k : Nat) :
    geo_lookup_time d i + 2 * k ≤ geo_lookup_time d (i + k) := by
  induction k with
  | zero => simp
  | succ k ih =>
    have h2 : geo_lookup_time d (i + k + 1) = geo_lookup_time d (i + k) + d (i + k) + 2 := rfl
    have h3 : i + (k + 1) = i + k + 1 := rfl
    rw [h3, h2]
    omega

/-- C10 counterexample: in src/scraper.py the geo lookups of two live
proxies can be in flight at the same time (the semaphore allows 40), so
lookups are not serialized there as the claim states. -/
theorem c10_scraper_geo_lookups_concurrent :
    scraper_geo_max_inflight 2 = 2 ∧ 1 < scraper_geo_max_inflight 2 := by
  decide

/-- C10 amended: in scraper_checker.py geo lookups are serialized - each
lookup ends strictly before the next one starts - and the 2-second sleep
before every lookup bounds any 60-second window to at most 30 lookup
starts; in src/scraper.py lookups are only bounded to 40 concurrent by a
semaphore, with no pacing, so two lookups can be in flight at once there. -/
theorem c10_checker_serialized_and_paced :
    (∀ d i, geo_lookup_time d i + d i < geo_lookup_time d (i + 1)) ∧
      (∀ (d : Nat → Nat) (w m : Nat),
        ((Finset.range m).filter
          (fun i => w ≤ geo_lookup_time d i ∧ geo_lookup_time d i < w + 60)).card ≤ 30) ∧
      scraper_geo_max_inflight 2 = 2 := by
  refine ⟨fun d i => ?_, fun d w m => ?_, rfl⟩
  · have h2 : geo_lookup_time d (i + 1) = geo_lookup_time d i + d i + 2 := rfl
    omega
  · by_cases h : ((Finset.range m).filter
        (fun i => w ≤ geo_lookup_time d i ∧ geo_lookup_time d i < w + 60)).Nonempty
    · set S := (Finset.range m).filter
        (fun i => w ≤ geo_lookup_time d i ∧ geo_lookup_time d i < w + 60) with hS
      have hsub : S ⊆ Finset.Ico (S.min' h) (S.min' h + 30) := by
        intro i hi
        have h1 : S.min' h ≤ i := Finset.min'_le S i hi
        have hi0w : w ≤ geo_lookup_time d (S.min' h) :=
          (Finset.mem_filter.mp (S.min'_mem h)).2.1
        have hiw : geo_lookup_time d i < w + 60 := (Finset.mem_filter.mp hi).2.2
        have hlt : i < S.min' h + 30 := by
          by_contra hcon
          push_neg at hcon
          have hgap := geo_lookup_time_gap d (S.min' h) (i - S.min' h)
          rw [show S.min' h + (i - S.min' h) = i by omega] at hgap
          omega
        exact Finset.mem_Ico.mpr ⟨h1, hlt⟩
      calc S.card ≤ (Finset.Ico (S.min' h) (S.min' h + 30)).card :=
            Finset.card_le_card hsub
        _ = 30 := by simp
    · rw [Finset.not_nonempty_iff_eq_empty.mp h]
      simp
